import Mathlib

/-!
Shallow embedding of the checkpoint-analysis routine
`analyze_all_checkpoints` from `src/cloud/run.ipynb` (cell 8), the single
piece of original logic in the repository, together with the proofs of the
specified properties.

The Python source:

  def analyze_all_checkpoints(checkpoint_dir="/content/drive/MyDrive/ColabCheckpoints"):
      checkpoint_path = Path(checkpoint_dir)
      checkpoints = list(checkpoint_path.glob("*_checkpoint.pkl"))
      stage_counts = \x7b\x7d
      firms_by_stage = \x7b\x7d
      for cp_file in checkpoints:
          with open(cp_file, "rb") as f:
              cp_data = pickle.load(f)
              stage = cp_data.get("stage", "Unknown")
              firm = cp_data.get("firm_name", "Unknown")
              stage_counts[stage] = stage_counts.get(stage, 0) + 1
              if stage not in firms_by_stage:
                  firms_by_stage[stage] = []
              firms_by_stage[stage].append(firm)
      print("Checkpoint Analysis:")
      print(f"Total checkpoints: ...")
      print("\nBreakdown by stage:")
      for stage, count in stage_counts.items():
          print(f"  - ...: ... firms")
      return firms_by_stage

Modelling decisions, each matching documented CPython semantics:
* the directory is `none` when the path does not exist; `pathlib.Path.glob`
  checks `is_dir` on the anchor first and returns an empty iterator for a
  path that is not a directory, so a missing directory yields an empty
  listing, not an error;
* a file content is `none` when `pickle.load` would raise on it; that
  exception is uncaught in the loop and aborts the whole call;
* a deserialized checkpoint is a Python dict; the scan consumes the two
  string fields `stage` and `firm_name` via `dict.get` with default
  `"Unknown"`, ignoring all other fields, so the dict is embedded as an
  association list from string keys to string values;
* Python dicts preserve insertion order, so `stage_counts` and
  `firms_by_stage` are embedded as insertion-ordered association lists;
* the call prints a report and returns only `firms_by_stage`; the embedding
  records both the printed lines and the returned value.
-/

namespace PropMetrics

/-- A deserialized checkpoint record: a Python dict with string keys and
string values.  The scan reads only the `stage` and `firm_name` fields. -/
abbrev Record := List (String × String)

/-- A file in the checkpoint directory: its name and its content; the
content is `none` when `pickle.load` would fail on the file (corrupt). -/
structure FileEntry where
  name : String
  content : Option Record
deriving DecidableEq

/-- The checkpoint directory: `none` when the path does not exist,
otherwise the listing of all files the directory holds (in the
OS-dependent directory-listing order). -/
abbrev Directory := Option (List FileEntry)

/-- Whether a file name matches the glob pattern `*_checkpoint.pkl`:
since `*` in `fnmatch` matches any, possibly empty, sequence of
characters, a name matches exactly when it ends with the literal suffix
`_checkpoint.pkl`, checked here on the character list of the name. -/
def matchesCheckpointGlob (name : String) : Bool :=
  List.isSuffixOf "_checkpoint.pkl".data name.data

/-- `list(checkpoint_path.glob("*_checkpoint.pkl"))`.  For a path that is
not an existing directory, `pathlib` returns an empty iterator (its
selector checks `is_dir` before scanning), so a missing directory produces
an empty listing rather than an error. -/
def globCheckpoints : Directory → List FileEntry
  | none => []
  | some entries => entries.filter (fun f => matchesCheckpointGlob f.name)

/-- `cp_data.get(key, default)` on a record dict. -/
def dictGet (r : Record) (key dflt : String) : String :=
  match r.find? (fun kv => kv.fst == key) with
  | some kv => kv.snd
  | none => dflt

/-- `stage_counts[stage] = stage_counts.get(stage, 0) + 1` on an
insertion-ordered dict: update the entry in place if the key is present,
otherwise insert it at the end with value 1. -/
def bumpCount : List (String × Nat) → String → List (String × Nat)
  | [], k => [(k, 1)]
  | (k0, n) :: rest, k =>
      if k0 == k then (k0, n + 1) :: rest else (k0, n) :: bumpCount rest k

/-- `if stage not in firms_by_stage: firms_by_stage[stage] = []` followed by
`firms_by_stage[stage].append(firm)` on an insertion-ordered dict. -/
def appendFirm : List (String × List String) → String → String →
    List (String × List String)
  | [], k, f => [(k, [f])]
  | (k0, fs) :: rest, k, f =>
      if k0 == k then (k0, fs ++ [f]) :: rest
      else (k0, fs) :: appendFirm rest k f

/-- The body of the scan loop on one successfully unpickled record:
read `stage` and `firm_name` with default `"Unknown"`, increment the
stage's count and append the firm to the stage's list. -/
def processRecord (counts : List (String × Nat))
    (firms : List (String × List String)) (r : Record) :
    List (String × Nat) × List (String × List String) :=
  let stage := dictGet r "stage" "Unknown"
  let firm := dictGet r "firm_name" "Unknown"
  (bumpCount counts stage, appendFirm firms stage firm)

/-- The scan loop over the globbed files.  `pickle.load` raising on any
file is uncaught and aborts the whole call, embedded as `Except.error`. -/
def scanLoop : List FileEntry → List (String × Nat) →
    List (String × List String) →
    Except String (List (String × Nat) × List (String × List String))
  | [], counts, firms => Except.ok (counts, firms)
  | f :: rest, counts, firms =>
    match f.content with
    | none => Except.error "UnpicklingError"
    | some r =>
        let st := processRecord counts firms r
        scanLoop rest st.fst st.snd

/-- The observable outcome of a successful call: the lines printed to
standard output and the value handed back to the caller (the source
returns `firms_by_stage` only). -/
structure ScanOutcome where
  printed : List String
  returned : List (String × List String)
deriving DecidableEq

/-- The report printed by the routine: a header, the total count of
globbed checkpoint files, a blank line from the `"\nBreakdown"` prefix,
and one line per stage with its count. -/
def reportLines (total : Nat) (counts : List (String × Nat)) : List String :=
  ["Checkpoint Analysis:",
   "Total checkpoints: " ++ toString total,
   "",
   "Breakdown by stage:"]
  ++ counts.map (fun sc => "  - " ++ sc.fst ++ ": " ++ toString sc.snd ++ " firms")

/-- The embedded `analyze_all_checkpoints`: glob the directory, run the
scan loop (propagating an unpickling exception), print the report and
return `firms_by_stage`. -/
def analyze_all_checkpoints (dir : Directory) : Except String ScanOutcome :=
  let checkpoints := globCheckpoints dir
  match scanLoop checkpoints [] [] with
  | Except.error e => Except.error e
  | Except.ok cf =>
      Except.ok { printed := reportLines checkpoints.length cf.fst,
                  returned := cf.snd }

/-- Modelled from the spec: the full Stage Summary — both the mapping from
stage name to record count and the mapping from stage name to the ordered
firm names — which the specification's Stage Summary comprises.  It is
computed by the same scan loop as the source; only its result shape
follows the spec's words.  Used to compare against what the source
actually returns. -/
def stage_summary_spec (dir : Directory) :
    Option (List (String × Nat) × List (String × List String)) :=
  match scanLoop (globCheckpoints dir) [] [] with
  | Except.error _ => none
  | Except.ok cf => some cf

/-- Dict lookup (first matching key) with default 0, for stating count
properties. -/
def lookupCount : List (String × Nat) → String → Nat
  | [], _ => 0
  | p :: rest, k => if p.fst == k then p.snd else lookupCount rest k

/-- Dict lookup (first matching key) with default `[]`, for stating
firm-list properties. -/
def lookupFirms : List (String × List String) → String → List String
  | [], _ => []
  | p :: rest, k => if p.fst == k then p.snd else lookupFirms rest k

/-- The sum of the per-stage counts. -/
def sumCounts : List (String × Nat) → Nat
  | [] => 0
  | p :: rest => p.snd + sumCounts rest

/-- Occurrences of a firm name in a firm list. -/
def countOcc (fn : String) : List String → Nat
  | [] => 0
  | x :: rest => (if x == fn then 1 else 0) + countOcc fn rest

/-- Number of parseable files in a listing whose record carries the given
stage and the given firm name (after the `"Unknown"` defaults). -/
def matchingRecords : List FileEntry → String → String → Nat
  | [], _, _ => 0
  | f :: rest, s, fn =>
    (match f.content with
     | some r =>
        if dictGet r "stage" "Unknown" == s &&
           dictGet r "firm_name" "Unknown" == fn then 1 else 0
     | none => 0) + matchingRecords rest s fn

/-- Number of parseable files in a listing whose record carries the given
stage (after the `"Unknown"` default). -/
def stageRecords : List FileEntry → String → Nat
  | [], _ => 0
  | f :: rest, s =>
    (match f.content with
     | some r => if dictGet r "stage" "Unknown" == s then 1 else 0
     | none => 0) + stageRecords rest s

/-- The per-stage counts read off a firms-by-stage mapping: same keys in
the same order, each mapped to the length of its firm list. -/
def stageLens (m : List (String × List String)) : List (String × Nat) :=
  m.map (fun p => (p.fst, p.snd.length))

/-! ### Concrete directories used by witnesses and counterexamples -/

/-- The three-file scenario of the specification: `a_checkpoint.pkl` at
stage `embedding` for firm `Acme`, `b_checkpoint.pkl` and
`c_checkpoint.pkl` at stage `topic_modeling` for firms `Globex` and
`Initech`. -/
def exampleDir : Directory :=
  some [⟨"a_checkpoint.pkl", some [("stage", "embedding"), ("firm_name", "Acme")]⟩,
        ⟨"b_checkpoint.pkl", some [("stage", "topic_modeling"), ("firm_name", "Globex")]⟩,
        ⟨"c_checkpoint.pkl", some [("stage", "topic_modeling"), ("firm_name", "Initech")]⟩]

/-- A four-file directory whose second checkpoint file is corrupt
(`pickle.load` raises on it); the other three are parseable. -/
def corruptDir : Directory :=
  some [⟨"a_checkpoint.pkl", some [("stage", "embedding"), ("firm_name", "Acme")]⟩,
        ⟨"b_checkpoint.pkl", none⟩,
        ⟨"c_checkpoint.pkl", some [("stage", "topic_modeling"), ("firm_name", "Globex")]⟩,
        ⟨"d_checkpoint.pkl", some [("stage", "topic_modeling"), ("firm_name", "Initech")]⟩]

/-- The directory of `corruptDir` with its corrupt file removed. -/
def corruptDirRest : Directory :=
  some [⟨"a_checkpoint.pkl", some [("stage", "embedding"), ("firm_name", "Acme")]⟩,
        ⟨"c_checkpoint.pkl", some [("stage", "topic_modeling"), ("firm_name", "Globex")]⟩,
        ⟨"d_checkpoint.pkl", some [("stage", "topic_modeling"), ("firm_name", "Initech")]⟩]

/-- A directory holding two records with the same stage and firm name. -/
def duplicateDir : Directory :=
  some [⟨"x_checkpoint.pkl", some [("stage", "embedding"), ("firm_name", "Acme")]⟩,
        ⟨"y_checkpoint.pkl", some [("stage", "embedding"), ("firm_name", "Acme")]⟩]

/-! ### Helper lemmas about the aggregation maps -/

theorem bumpCount_stageLens (m : List (String × List String)) (k f : String) :
    bumpCount (stageLens m) k = stageLens (appendFirm m k f) := by
  induction m with
  | nil => simp [stageLens, bumpCount, appendFirm]
  | cons p rest ih =>
      by_cases h : p.fst = k
      · simp [stageLens, bumpCount, appendFirm, h]
      · simpa [stageLens, bumpCount, appendFirm, h] using ih

theorem sumCounts_bumpCount (m : List (String × Nat)) (k : String) :
    sumCounts (bumpCount m k) = sumCounts m + 1 := by
  induction m with
  | nil => simp [bumpCount, sumCounts]
  | cons p rest ih =>
      by_cases h : p.fst = k
      · simp [bumpCount, sumCounts, h]; omega
      · simp [bumpCount, sumCounts, h, ih]; omega

theorem appendFirm_nonempty (m : List (String × List String)) (k f : String)
    (h : ∀ p ∈ m, p.snd ≠ []) : ∀ p ∈ appendFirm m k f, p.snd ≠ [] := by
  induction m with
  | nil =>
      intro p hp
      simp [appendFirm] at hp
      simp [hp]
  | cons q rest ih =>
      intro p hp
      by_cases hq : q.fst = k
      · simp [appendFirm, hq] at hp
        rcases hp with hp | hp
        · simp [hp]
        · exact h p (List.mem_cons_of_mem q hp)
      · simp [appendFirm, hq] at hp
        rcases hp with hp | hp
        · exact hp ▸ h q (List.mem_cons_self q rest)
        · exact ih (fun r hr => h r (List.mem_cons_of_mem q hr)) p hp

theorem lookupCount_bumpCount (m : List (String × Nat)) (k s : String) :
    lookupCount (bumpCount m k) s =
      lookupCount m s + (if k = s then 1 else 0) := by
  induction m with
  | nil =>
      by_cases h : k = s <;> simp [bumpCount, lookupCount, beq_iff_eq, h]
  | cons p rest ih =>
      by_cases hpk : p.fst = k
      · by_cases hps : p.fst = s
        · have hks : k = s := hpk.symm.trans hps
          simp [bumpCount, lookupCount, beq_iff_eq, hpk, hps, hks]
        · have hks : ¬ k = s := fun hk => hps (hpk.trans hk)
          simp [bumpCount, lookupCount, beq_iff_eq, hpk, hps, hks]
      · by_cases hps : p.fst = s
        · have hks : ¬ k = s := fun hk => hpk (hps.trans hk.symm)
          have hsk : ¬ s = k := fun h => hks h.symm
          simp [bumpCount, lookupCount, beq_iff_eq, hpk, hps, hks, hsk]
        · simp [bumpCount, lookupCount, beq_iff_eq, hpk, hps, ih]

theorem lookupFirms_appendFirm (m : List (String × List String)) (k f s : String) :
    lookupFirms (appendFirm m k f) s =
      if k = s then lookupFirms m s ++ [f] else lookupFirms m s := by
  induction m with
  | nil =>
      by_cases h : k = s <;> simp [appendFirm, lookupFirms, beq_iff_eq, h]
  | cons p rest ih =>
      by_cases hpk : p.fst = k
      · by_cases hps : p.fst = s
        · have hks : k = s := hpk.symm.trans hps
          simp [appendFirm, lookupFirms, beq_iff_eq, hpk, hps, hks]
        · have hks : ¬ k = s := fun hk => hps (hpk.trans hk)
          simp [appendFirm, lookupFirms, beq_iff_eq, hpk, hps, hks]
      · by_cases hps : p.fst = s
        · have hks : ¬ k = s := fun hk => hpk (hps.trans hk.symm)
          have hsk : ¬ s = k := fun h => hks h.symm
          simp [appendFirm, lookupFirms, beq_iff_eq, hpk, hps, hks, hsk]
        · simp [appendFirm, lookupFirms, beq_iff_eq, hpk, hps, ih]

theorem countOcc_append (fn : String) (a b : List String) :
    countOcc fn (a ++ b) = countOcc fn a + countOcc fn b := by
  induction a with
  | nil => simp [countOcc]
  | cons x rest ih => simp [countOcc, ih]; omega

theorem matchingRecords_le_stageRecords (files : List FileEntry) (s fn : String) :
    matchingRecords files s fn ≤ stageRecords files s := by
  induction files with
  | nil => simp [matchingRecords, stageRecords]
  | cons f rest ih =>
      cases hf : f.content with
      | none => simpa [matchingRecords, stageRecords, hf] using ih
      | some r =>
          simp only [matchingRecords, stageRecords, hf]
          have : (if dictGet r "stage" "Unknown" == s &&
                     dictGet r "firm_name" "Unknown" == fn then 1 else 0) ≤
                 (if dictGet r "stage" "Unknown" == s then 1 else 0) := by
            by_cases h1 : dictGet r "stage" "Unknown" = s <;>
              by_cases h2 : dictGet r "firm_name" "Unknown" = fn <;>
                simp [beq_iff_eq, h1, h2]
          omega

/-! ### Lemmas about the scan loop -/

theorem scanLoop_stageLens (files : List FileEntry) :
    ∀ c m c2 m2, c = stageLens m →
      scanLoop files c m = Except.ok (c2, m2) → c2 = stageLens m2 := by
  induction files with
  | nil =>
      intro c m c2 m2 hc h
      simp only [scanLoop, Except.ok.injEq, Prod.mk.injEq] at h
      exact h.2 ▸ h.1 ▸ hc
  | cons f rest ih =>
      intro c m c2 m2 hc h
      cases hf : f.content with
      | none => simp [scanLoop, hf] at h
      | some r =>
          simp only [scanLoop, hf, processRecord] at h
          exact ih _ _ _ _ (hc ▸ bumpCount_stageLens m _ _) h

theorem scanLoop_sumCounts (files : List FileEntry) :
    ∀ c m c2 m2, scanLoop files c m = Except.ok (c2, m2) →
      sumCounts c2 = sumCounts c + files.length := by
  induction files with
  | nil =>
      intro c m c2 m2 h
      simp only [scanLoop, Except.ok.injEq, Prod.mk.injEq] at h
      simp [h.1]
  | cons f rest ih =>
      intro c m c2 m2 h
      cases hf : f.content with
      | none => simp [scanLoop, hf] at h
      | some r =>
          simp only [scanLoop, hf, processRecord] at h
          have := ih _ _ _ _ h
          rw [this, sumCounts_bumpCount]
          simp
          omega

theorem scanLoop_firms_nonempty (files : List FileEntry) :
    ∀ c m c2 m2, (∀ p ∈ m, p.snd ≠ []) →
      scanLoop files c m = Except.ok (c2, m2) → ∀ p ∈ m2, p.snd ≠ [] := by
  induction files with
  | nil =>
      intro c m c2 m2 hm h
      simp only [scanLoop, Except.ok.injEq, Prod.mk.injEq] at h
      exact h.2 ▸ hm
  | cons f rest ih =>
      intro c m c2 m2 hm h
      cases hf : f.content with
      | none => simp [scanLoop, hf] at h
      | some r =>
          simp only [scanLoop, hf, processRecord] at h
          exact ih _ _ _ _ (appendFirm_nonempty m _ _ hm) h

theorem scanLoop_ok_all_parsed (files : List FileEntry) :
    ∀ c m c2 m2, scanLoop files c m = Except.ok (c2, m2) →
      ∀ f ∈ files, f.content ≠ none := by
  induction files with
  | nil => intro c m c2 m2 _ f hf; simp at hf
  | cons g rest ih =>
      intro c m c2 m2 h f hf
      cases hg : g.content with
      | none => simp [scanLoop, hg] at h
      | some r =>
          simp only [scanLoop, hg, processRecord] at h
          rcases List.mem_cons.1 hf with hfg | hfr
          · rw [hfg, hg]; exact Option.noConfusion
          · exact ih _ _ _ _ h f hfr

theorem scanLoop_lookup (files : List FileEntry) :
    ∀ c m c2 m2 s fn, scanLoop files c m = Except.ok (c2, m2) →
      countOcc fn (lookupFirms m2 s) =
        countOcc fn (lookupFirms m s) + matchingRecords files s fn ∧
      lookupCount c2 s = lookupCount c s + stageRecords files s := by
  induction files with
  | nil =>
      intro c m c2 m2 s fn h
      simp only [scanLoop, Except.ok.injEq, Prod.mk.injEq] at h
      simp [h.1, h.2, matchingRecords, stageRecords]
  | cons f rest ih =>
      intro c m c2 m2 s fn h
      cases hf : f.content with
      | none => simp [scanLoop, hf] at h
      | some r =>
          simp only [scanLoop, hf, processRecord] at h
          have hih := ih _ _ _ _ s fn h
          constructor
          · rw [hih.1, lookupFirms_appendFirm]
            simp only [matchingRecords, hf]
            by_cases h1 : dictGet r "stage" "Unknown" = s <;>
              by_cases h2 : dictGet r "firm_name" "Unknown" = fn <;>
                simp [beq_iff_eq, h1, h2, countOcc_append, countOcc] <;> omega
          · rw [hih.2, lookupCount_bumpCount]
            simp only [stageRecords, hf]
            by_cases h1 : dictGet r "stage" "Unknown" = s <;>
              simp [beq_iff_eq, h1] <;> omega

theorem stage_summary_spec_eq_ok (d : Directory) (c : List (String × Nat))
    (m : List (String × List String))
    (h : stage_summary_spec d = some (c, m)) :
    scanLoop (globCheckpoints d) [] [] = Except.ok (c, m) := by
  unfold stage_summary_spec at h
  cases hs : scanLoop (globCheckpoints d) [] [] with
  | error e => rw [hs] at h; simp at h
  | ok cf =>
      rw [hs] at h
      simp only [Option.some.injEq] at h
      exact congrArg Except.ok h

theorem analyze_eq_ok (d : Directory) (out : ScanOutcome)
    (h : analyze_all_checkpoints d = Except.ok out) :
    ∃ cf, scanLoop (globCheckpoints d) [] [] = Except.ok cf ∧
      out = { printed := reportLines (globCheckpoints d).length cf.fst,
              returned := cf.snd } := by
  simp only [analyze_all_checkpoints] at h
  cases hs : scanLoop (globCheckpoints d) [] [] with
  | error e => rw [hs] at h; simp at h
  | ok cf =>
      rw [hs] at h
      simp only [Except.ok.injEq] at h
      exact ⟨cf, rfl, h.symm⟩

/-! ### The claims -/

/-- C1: the claim states that a nonexistent directory makes the scan fail
with a NotFound error and never report zero checkpoints.  The code does
the opposite: `pathlib.Path.glob` on a missing directory yields an empty
listing, so `analyze_all_checkpoints` succeeds, prints
`Total checkpoints: 0` with an empty breakdown, and returns an empty
firms-by-stage mapping.  This theorem evaluates the code at that failing
input. -/
theorem missing_directory_reported_as_zero :
    analyze_all_checkpoints none =
      Except.ok { printed := ["Checkpoint Analysis:", "Total checkpoints: 0",
                              "", "Breakdown by stage:"],
                  returned := [] } := rfl

/-- C2: the claim states that one corrupt checkpoint file must not abort
the scan of the remaining files.  In the code the `pickle.load` exception
is uncaught, so a directory whose second of four checkpoint files is
corrupt makes the whole call fail with no summary at all — even though,
as the second conjunct shows, the same scan over the three parseable
files alone would have succeeded.  This theorem evaluates the code at
that failing input. -/
theorem corrupt_file_aborts_scan :
    analyze_all_checkpoints corruptDir = Except.error "UnpicklingError" ∧
    analyze_all_checkpoints corruptDirRest =
      Except.ok { printed := ["Checkpoint Analysis:", "Total checkpoints: 3",
                              "", "Breakdown by stage:",
                              "  - embedding: 1 firms",
                              "  - topic_modeling: 2 firms"],
                  returned := [("embedding", ["Acme"]),
                               ("topic_modeling", ["Globex", "Initech"])] } :=
  ⟨rfl, rfl⟩

/-- C3 counterexample: at the specification's own three-file directory
the full Stage Summary comprises both the count mapping
`[(embedding, 1), (topic_modeling, 2)]` and the firm-list mapping, yet
the value `analyze_all_checkpoints` hands back to the caller is the
firm-list mapping alone: the count mapping appears only in the printed
report, so the claim that both mappings are returned fails. -/
theorem scan_return_is_not_full_summary :
    stage_summary_spec exampleDir =
      some ([("embedding", 1), ("topic_modeling", 2)],
            [("embedding", ["Acme"]), ("topic_modeling", ["Globex", "Initech"])]) ∧
    analyze_all_checkpoints exampleDir =
      Except.ok { printed := ["Checkpoint Analysis:", "Total checkpoints: 3",
                              "", "Breakdown by stage:",
                              "  - embedding: 1 firms",
                              "  - topic_modeling: 2 firms"],
                  returned := [("embedding", ["Acme"]),
                               ("topic_modeling", ["Globex", "Initech"])] } :=
  ⟨rfl, rfl⟩

/-- C3 amended: for every directory on which the scan completes, the call
returns exactly the firm-list component of the Stage Summary (the mapping
from stage to the ordered firm names); the count component exists but is
only printed in the report, not returned. -/
theorem scan_returns_firm_groupings (d : Directory) (out : ScanOutcome)
    (h : analyze_all_checkpoints d = Except.ok out) :
    ∃ c, stage_summary_spec d = some (c, out.returned) ∧
      out.printed = reportLines (globCheckpoints d).length c := by
  obtain ⟨cf, hs, hout⟩ := analyze_eq_ok d out h
  refine ⟨cf.fst, ?_, ?_⟩
  · simp [stage_summary_spec, hs, hout]
  · rw [hout]

/-- C3 amended, witness at the three-file directory. -/
theorem scan_returns_firm_groupings_witness :
    ∃ c, stage_summary_spec exampleDir =
        some (c, (ScanOutcome.mk
          ["Checkpoint Analysis:", "Total checkpoints: 3", "",
           "Breakdown by stage:", "  - embedding: 1 firms",
           "  - topic_modeling: 2 firms"]
          [("embedding", ["Acme"]),
           ("topic_modeling", ["Globex", "Initech"])]).returned) ∧
      (ScanOutcome.mk
          ["Checkpoint Analysis:", "Total checkpoints: 3", "",
           "Breakdown by stage:", "  - embedding: 1 firms",
           "  - topic_modeling: 2 firms"]
          [("embedding", ["Acme"]),
           ("topic_modeling", ["Globex", "Initech"])]).printed =
        reportLines (globCheckpoints exampleDir).length c :=
  scan_returns_firm_groupings exampleDir
    (ScanOutcome.mk
      ["Checkpoint Analysis:", "Total checkpoints: 3", "",
       "Breakdown by stage:", "  - embedding: 1 firms",
       "  - topic_modeling: 2 firms"]
      [("embedding", ["Acme"]),
       ("topic_modeling", ["Globex", "Initech"])]) rfl

/-- C4: for every completed scan and every stage key present in the
summary, the count recorded for the stage equals the length of that
stage's firm-name list. -/
theorem stage_count_eq_firm_list_length (d : Directory)
    (c : List (String × Nat)) (m : List (String × List String))
    (h : stage_summary_spec d = some (c, m)) :
    ∀ s n, (s, n) ∈ c → ∃ fs, (s, fs) ∈ m ∧ fs.length = n := by
  have hs := stage_summary_spec_eq_ok d c m h
  have hc : c = stageLens m :=
    scanLoop_stageLens (globCheckpoints d) [] [] c m rfl hs
  intro s n hmem
  rw [hc] at hmem
  obtain ⟨⟨ps, fs⟩, hp, hpe⟩ := List.mem_map.1 hmem
  simp only [Prod.mk.injEq] at hpe
  exact ⟨fs, hpe.1 ▸ hp, hpe.2⟩

/-- C4, witness at the three-file directory: the `topic_modeling` count 2
equals the length of its firm list. -/
theorem stage_count_eq_firm_list_length_witness :
    ∃ fs, ("topic_modeling", fs) ∈
        [("embedding", ["Acme"]), ("topic_modeling", ["Globex", "Initech"])] ∧
      fs.length = 2 :=
  stage_count_eq_firm_list_length exampleDir
    [("embedding", 1), ("topic_modeling", 2)]
    [("embedding", ["Acme"]), ("topic_modeling", ["Globex", "Initech"])]
    rfl "topic_modeling" 2 (by simp)

/-- C5: for every completed scan, the sum of the per-stage counts equals
the number of checkpoint files globbed from the directory — all of which
were successfully parsed, since any unparseable file aborts the call —
and that same number is what the printed report states as the total
checkpoint count. -/
theorem total_equals_sum_of_stage_counts (d : Directory) (out : ScanOutcome)
    (c : List (String × Nat)) (m : List (String × List String))
    (h : analyze_all_checkpoints d = Except.ok out)
    (h2 : stage_summary_spec d = some (c, m)) :
    sumCounts c = (globCheckpoints d).length ∧
    (∀ f ∈ globCheckpoints d, f.content ≠ none) ∧
    out.printed[1]? = some ("Total checkpoints: " ++ toString (sumCounts c)) := by
  have hs := stage_summary_spec_eq_ok d c m h2
  have hsum : sumCounts c = (globCheckpoints d).length := by
    have := scanLoop_sumCounts (globCheckpoints d) [] [] c m hs
    simpa [sumCounts] using this
  refine ⟨hsum, scanLoop_ok_all_parsed (globCheckpoints d) [] [] c m hs, ?_⟩
  obtain ⟨cf, hs2, hout⟩ := analyze_eq_ok d out h
  rw [hs] at hs2
  simp only [Except.ok.injEq] at hs2
  rw [hout, hsum]
  simp [reportLines, hs2]

/-- C5, witness at the three-file directory. -/
theorem total_equals_sum_of_stage_counts_witness :
    sumCounts [("embedding", 1), ("topic_modeling", 2)] =
        (globCheckpoints exampleDir).length ∧
    (∀ f ∈ globCheckpoints exampleDir, f.content ≠ none) ∧
    (ScanOutcome.mk
        ["Checkpoint Analysis:", "Total checkpoints: 3", "",
         "Breakdown by stage:", "  - embedding: 1 firms",
         "  - topic_modeling: 2 firms"]
        [("embedding", ["Acme"]),
         ("topic_modeling", ["Globex", "Initech"])]).printed[1]? =
      some ("Total checkpoints: " ++
        toString (sumCounts [("embedding", 1), ("topic_modeling", 2)])) :=
  total_equals_sum_of_stage_counts exampleDir
    (ScanOutcome.mk
      ["Checkpoint Analysis:", "Total checkpoints: 3", "",
       "Breakdown by stage:", "  - embedding: 1 firms",
       "  - topic_modeling: 2 firms"]
      [("embedding", ["Acme"]),
       ("topic_modeling", ["Globex", "Initech"])])
    [("embedding", 1), ("topic_modeling", 2)]
    [("embedding", ["Acme"]), ("topic_modeling", ["Globex", "Initech"])]
    rfl rfl

/-- C6: on any successfully deserialized record, if the `stage` key is
absent the record is aggregated under stage `Unknown`, and if the
`firm_name` key is absent the value `Unknown` is appended to the record's
stage group; in both cases the loop body is a total function, so a
missing field is never an error. -/
theorem missing_fields_default_to_unknown
    (c : List (String × Nat)) (m : List (String × List String)) (r : Record) :
    (r.find? (fun kv => kv.fst == "stage") = none →
      processRecord c m r =
        (bumpCount c "Unknown",
         appendFirm m "Unknown" (dictGet r "firm_name" "Unknown"))) ∧
    (r.find? (fun kv => kv.fst == "firm_name") = none →
      processRecord c m r =
        (bumpCount c (dictGet r "stage" "Unknown"),
         appendFirm m (dictGet r "stage" "Unknown") "Unknown")) := by
  constructor <;> intro h <;> simp [processRecord, dictGet, h]

/-- C6, witness: a record with neither field lands in the `Unknown` stage
with firm name `Unknown`. -/
theorem missing_fields_default_to_unknown_witness :
    processRecord [] [] [] = ([("Unknown", 1)], [("Unknown", ["Unknown"])]) :=
  ((missing_fields_default_to_unknown [] [] []).1 rfl).trans rfl

/-- C7: for every existing directory with no file matching the
`*_checkpoint.pkl` convention, the scan succeeds with total zero, empty
per-stage counts and empty per-stage firm lists. -/
theorem no_matching_files_empty_summary (entries : List FileEntry)
    (h : ∀ f ∈ entries, matchesCheckpointGlob f.name = false) :
    stage_summary_spec (some entries) = some ([], []) ∧
    analyze_all_checkpoints (some entries) =
      Except.ok { printed := ["Checkpoint Analysis:", "Total checkpoints: 0",
                              "", "Breakdown by stage:"],
                  returned := [] } := by
  have hnil : globCheckpoints (some entries) = [] := by
    simp only [globCheckpoints]
    exact List.filter_eq_nil_iff.2 (fun f hf => by simp [h f hf])
  constructor
  · simp [stage_summary_spec, hnil, scanLoop]
  · simp [analyze_all_checkpoints, hnil, scanLoop, reportLines]
    rfl

/-- C7, witness: a directory holding only `README.md`. -/
theorem no_matching_files_empty_summary_witness :
    stage_summary_spec (some [⟨"README.md", none⟩]) = some ([], []) ∧
    analyze_all_checkpoints (some [⟨"README.md", none⟩]) =
      Except.ok { printed := ["Checkpoint Analysis:", "Total checkpoints: 0",
                              "", "Breakdown by stage:"],
                  returned := [] } :=
  no_matching_files_empty_summary [⟨"README.md", none⟩] (by decide)

/-- C8: the scan is deterministic in the directory snapshot: two
invocations that glob the same checkpoint listing (in particular, two
runs against an unchanged directory — same file names in the same order
with the same contents) produce identical outcomes, both in the printed
report and in the returned summary. -/
theorem scan_idempotent (d1 d2 : Directory)
    (h : globCheckpoints d1 = globCheckpoints d2) :
    analyze_all_checkpoints d1 = analyze_all_checkpoints d2 := by
  simp [analyze_all_checkpoints, h]

/-- C8, witness: adding a file that does not match the checkpoint pattern
leaves the globbed listing, hence the whole outcome, unchanged. -/
theorem scan_idempotent_witness :
    analyze_all_checkpoints
      (some [⟨"a_checkpoint.pkl",
              some [("stage", "embedding"), ("firm_name", "Acme")]⟩,
             ⟨"notes.txt", none⟩]) =
    analyze_all_checkpoints
      (some [⟨"a_checkpoint.pkl",
              some [("stage", "embedding"), ("firm_name", "Acme")]⟩]) :=
  scan_idempotent _ _ rfl

/-- C9: on every completed scan, the returned firms-by-stage mapping maps
every stage key it holds to a non-empty firm list, and every stage key of
the count mapping carries a count of at least 1: a stage appears only
when at least one record was aggregated under it. -/
theorem stage_keys_have_records (d : Directory) (out : ScanOutcome)
    (c : List (String × Nat)) (m : List (String × List String))
    (h : analyze_all_checkpoints d = Except.ok out)
    (h2 : stage_summary_spec d = some (c, m)) :
    out.returned = m ∧ (∀ p ∈ out.returned, p.snd ≠ []) ∧
    ∀ q ∈ c, 1 ≤ q.snd := by
  have hs := stage_summary_spec_eq_ok d c m h2
  obtain ⟨cf, hs2, hout⟩ := analyze_eq_ok d out h
  rw [hs] at hs2
  simp only [Except.ok.injEq] at hs2
  have hret : out.returned = m := by rw [hout, ← hs2]
  have hne : ∀ p ∈ m, p.snd ≠ [] :=
    scanLoop_firms_nonempty (globCheckpoints d) [] [] c m (by simp) hs
  refine ⟨hret, hret ▸ hne, ?_⟩
  have hc : c = stageLens m :=
    scanLoop_stageLens (globCheckpoints d) [] [] c m rfl hs
  intro q hq
  rw [hc] at hq
  obtain ⟨⟨ps, fs⟩, hp, hpe⟩ := List.mem_map.1 hq
  have hfs : fs ≠ [] := hne _ hp
  rw [← hpe]
  simpa [Nat.succ_le, Nat.pos_iff_ne_zero] using
    fun h0 => hfs (List.eq_nil_of_length_eq_zero h0)

/-- C9, witness at the three-file directory. -/
theorem stage_keys_have_records_witness :
    (ScanOutcome.mk
        ["Checkpoint Analysis:", "Total checkpoints: 3", "",
         "Breakdown by stage:", "  - embedding: 1 firms",
         "  - topic_modeling: 2 firms"]
        [("embedding", ["Acme"]),
         ("topic_modeling", ["Globex", "Initech"])]).returned =
      [("embedding", ["Acme"]), ("topic_modeling", ["Globex", "Initech"])] ∧
    (∀ p ∈ (ScanOutcome.mk
        ["Checkpoint Analysis:", "Total checkpoints: 3", "",
         "Breakdown by stage:", "  - embedding: 1 firms",
         "  - topic_modeling: 2 firms"]
        [("embedding", ["Acme"]),
         ("topic_modeling", ["Globex", "Initech"])]).returned, p.snd ≠ []) ∧
    ∀ q ∈ [("embedding", 1), ("topic_modeling", 2)], 1 ≤ q.snd :=
  stage_keys_have_records exampleDir
    (ScanOutcome.mk
      ["Checkpoint Analysis:", "Total checkpoints: 3", "",
       "Breakdown by stage:", "  - embedding: 1 firms",
       "  - topic_modeling: 2 firms"]
      [("embedding", ["Acme"]),
       ("topic_modeling", ["Globex", "Initech"])])
    [("embedding", 1), ("topic_modeling", 2)]
    [("embedding", ["Acme"]), ("topic_modeling", ["Globex", "Initech"])]
    rfl rfl

/-- C10: the scan never deduplicates firm names: whenever at least two of
the parsed records carry the same stage and the same firm name, that firm
name occurs at least twice in the stage's firm list, and the stage's
count includes both records. -/
theorem scanner_does_not_deduplicate (d : Directory)
    (c : List (String × Nat)) (m : List (String × List String)) (s fn : String)
    (h : stage_summary_spec d = some (c, m))
    (h2 : 2 ≤ matchingRecords (globCheckpoints d) s fn) :
    2 ≤ countOcc fn (lookupFirms m s) ∧ 2 ≤ lookupCount c s := by
  have hs := stage_summary_spec_eq_ok d c m h
  have hl := scanLoop_lookup (globCheckpoints d) [] [] c m s fn hs
  have hle := matchingRecords_le_stageRecords (globCheckpoints d) s fn
  constructor
  · have := hl.1
    simp only [lookupFirms, countOcc] at this
    omega
  · have := hl.2
    simp only [lookupCount] at this
    omega

/-- C10, witness: a directory with two checkpoints for stage `embedding`
and firm `Acme` yields `Acme` twice in the `embedding` firm list and an
`embedding` count of 2. -/
theorem scanner_does_not_deduplicate_witness :
    2 ≤ countOcc "Acme"
        (lookupFirms [("embedding", ["Acme", "Acme"])] "embedding") ∧
    2 ≤ lookupCount [("embedding", 2)] "embedding" :=
  scanner_does_not_deduplicate duplicateDir
    [("embedding", 2)] [("embedding", ["Acme", "Acme"])]
    "embedding" "Acme" rfl (by decide)

end PropMetrics
